import Mathlib

/-!
Shallow embedding of `src/components/webapi.js` from node-steamcommunity:
the Web API key provisioning flow (`createWebApiKey`) and the mobile
access-token guard (`setMobileAppAccessToken`, `_verifyMobileAccessToken`).

Modelling conventions:
- JavaScript optional values become `Option`; JS truthiness of a string is
  `some s` with `s ≠ ""`, of a number is `some n` with `n ≠ 0`, and of an
  array is `some _` (an array is always truthy, even when empty).
- Asynchronous callback code becomes a function returning
  `Except SCError _` together with a trace of the observable collaborator
  calls (network posts, key lookups, confirmation approvals).
- Each network round trip of `createWebApiKey` consumes one element of an
  explicit response list; an empty list models a reply that is never
  observed and yields the distinguished `SCError.noResponse`.
- A JWT is modelled by its decoded claim record, since `Helpers.decodeJwt`
  lives outside this component and every claim here is about the decoded
  claims.
-/

/-- JS truthiness of an optional string: `undefined` and `''` are falsy. -/
def jsTruthyStr : Option String → Bool
  | none => false
  | some s => s ≠ ""

/-- JS truthiness of an optional number: `undefined` and `0` are falsy. -/
def jsTruthyNat : Option Nat → Bool
  | none => false
  | some n => n ≠ 0

/-- JS truthiness of an optional array: any array (even empty) is truthy. -/
def jsTruthyArr : Option (List String) → Bool
  | none => false
  | some _ => true

/-- JS `a || b` on optional strings: returns `a` when truthy, else `b`. -/
def jsOrStr (a b : Option String) : Option String :=
  match a with
  | some s => if s = "" then b else some s
  | none => b

/-- JS `a || d` where `d` is a string literal default, as in
`options.requestID || '0'`. -/
def jsOrStrD (a : Option String) (d : String) : String :=
  match a with
  | some s => if s = "" then d else s
  | none => d

/-- The two `SteamCommunity.EResult` values `createWebApiKey` branches on. -/
def EResult.OK : Nat := 1

/-- `SteamCommunity.EResult.Pending`. -/
def EResult.Pending : Nat := 2

/-- Errors surfaced by the Web API key flow. `external n` stands for an
arbitrary error object produced by a collaborator (transport, key lookup,
confirmation approval); `noResponse` is the modelling artifact for a
network reply that the finite response list does not contain. -/
inductive SCError where
  | domainRequired
  | eresultError (code : Nat)
  | external (n : Nat)
  | noResponse
  deriving DecidableEq, Repr

/-- `CreateApiKeyOptions` from the JSDoc: `domain`, optional `requestID`,
optional `identitySecret`. -/
structure CreateApiKeyOptions where
  domain : Option String
  requestID : Option String
  identitySecret : Option String
  deriving DecidableEq, Repr

/-- `CreateApiKeyResponse` from the JSDoc: `confirmationRequired`, optional
`apiKey`, optional `finalizeOptions`. -/
structure CreateApiKeyResponse where
  confirmationRequired : Bool
  apiKey : Option String
  finalizeOptions : Option CreateApiKeyOptions
  deriving DecidableEq, Repr

/-- The JSON body answered by `https://steamcommunity.com/dev/requestkey`:
`success` (an EResult number), optional `api_key`, optional `request_id`,
and the boolean-as-number `requires_confirmation` hint that the code
deliberately ignores. -/
structure RegisterResponse where
  success : Nat
  api_key : Option String
  request_id : Option String
  requires_confirmation : Nat
  deriving DecidableEq, Repr

/-- Observable collaborator calls made by `createWebApiKey`. -/
inductive Effect where
  | httpPost (domain : String) (request_id : String)
  | fetchKey
  | acceptConfirm (secret : String) (requestID : Option String)
  deriving DecidableEq, Repr

/-- The collaborators `createWebApiKey` consumes:
`acceptConfirmationForObject` and `getWebApiKey` (the latter modelled at
the granularity of its callback result, as its body only scrapes HTML). -/
structure CollabEnv where
  acceptConfirmation : String → Option String → Except SCError Unit
  getWebApiKey : Except SCError String

/-- `SteamCommunity.prototype.createWebApiKey`, embedded with an explicit
list of registration-call replies (one consumed per recursion level) and a
trace of collaborator calls. Mirrors the source branch for branch:
the domain guard, the transport-error propagation, the `switch` on
`body.success` with cases `OK`, `Pending` and default, the truthiness test
on `body.api_key`, the `getWebApiKey` fallback, the construction of
`finalizeOptions` (note: without `identitySecret`), the truthiness test on
`options.identitySecret`, and the recursion after a successful
confirmation. -/
def createRun (env : CollabEnv) (responses : List (Except SCError RegisterResponse))
    (options : CreateApiKeyOptions) :
    Except SCError CreateApiKeyResponse × List Effect :=
  if ¬ jsTruthyStr options.domain then
    (.error .domainRequired, [])
  else
    let postEffect := Effect.httpPost (options.domain.getD "") (jsOrStrD options.requestID "0")
    match responses with
    | [] => (.error .noResponse, [postEffect])
    | .error e :: _ => (.error e, [postEffect])
    | .ok body :: rest =>
      if body.success = EResult.OK then
        if jsTruthyStr body.api_key then
          (.ok ⟨false, body.api_key, none⟩, [postEffect])
        else
          match env.getWebApiKey with
          | .error e => (.error e, [postEffect, .fetchKey])
          | .ok key => (.ok ⟨false, some key, none⟩, [postEffect, .fetchKey])
      else if body.success = EResult.Pending then
        let finalizeOptions : CreateApiKeyOptions :=
          ⟨options.domain, jsOrStr body.request_id options.requestID, none⟩
        match options.identitySecret with
        | some secret =>
          if secret = "" then
            (.ok ⟨true, none, some finalizeOptions⟩, [postEffect])
          else
            match env.acceptConfirmation secret finalizeOptions.requestID with
            | .error e =>
              (.error e, [postEffect, .acceptConfirm secret finalizeOptions.requestID])
            | .ok _ =>
              let recd := createRun env rest finalizeOptions
              (recd.1, postEffect :: .acceptConfirm secret finalizeOptions.requestID :: recd.2)
        | none =>
          (.ok ⟨true, none, some finalizeOptions⟩, [postEffect])
      else
        (.error (.eresultError body.success), [postEffect])
termination_by responses.length
decreasing_by simp

/-- A decoded Steam JWT, at the claim granularity used by
`setMobileAppAccessToken` and `_verifyMobileAccessToken`. -/
structure Jwt where
  iss : Option String
  sub : Option String
  aud : Option (List String)
  exp : Option Nat
  deriving DecidableEq, Repr

/-- The session state these functions touch: the logged-in account's
64-bit id in decimal form (`this.steamID.getSteamID64()`) and the stored
mobile access token. -/
structure SessionState where
  steamID : String
  mobileAccessToken : Option Jwt
  deriving DecidableEq, Repr

/-- The distinct rejection reasons of `setMobileAppAccessToken`. -/
inductive TokenError where
  | malformedToken
  | refreshToken
  | identityMismatch (tokenSub : String) (ourId : String)
  | tokenExpired
  | wrongAudience
  deriving DecidableEq, Repr

/-- JS `decodedToken.exp < now` — false when `exp` is `undefined`
(NaN comparison), else the numeric comparison. -/
def jwtExpLt (tok : Jwt) (now : Nat) : Bool :=
  match tok.exp with
  | none => false
  | some e => e < now

/-- `SteamCommunity.prototype.setMobileAppAccessToken`, embedded over the
decoded token. `now` is `Math.floor(Date.now() / 1000)`. Mirrors the
source check for check: the four-claim truthiness test, the refresh-token
issuer test, the subject/identity comparison, the expiry comparison, and
the audience membership test; on success the token is retained. -/
def setMobileAppAccessToken (s : SessionState) (tok : Jwt) (now : Nat) :
    Except TokenError SessionState :=
  if ¬ (jsTruthyStr tok.iss ∧ jsTruthyStr tok.sub ∧ jsTruthyArr tok.aud ∧ jsTruthyNat tok.exp) then
    .error .malformedToken
  else if tok.iss = some "steam" then
    .error .refreshToken
  else if tok.sub ≠ some s.steamID then
    .error (.identityMismatch (tok.sub.getD "") s.steamID)
  else if jwtExpLt tok now then
    .error .tokenExpired
  else if ¬ ("mobile" ∈ tok.aud.getD []) then
    .error .wrongAudience
  else
    .ok { s with mobileAccessToken := some tok }

/-- `SteamCommunity.prototype._verifyMobileAccessToken`: no-op when no
token is stored; otherwise clears the stored token exactly when the
subject no longer matches the identity or the token is expired. It is a
total function into `SessionState`: the source has no throwing path. -/
def verifyMobileAccessToken (s : SessionState) (now : Nat) : SessionState :=
  match s.mobileAccessToken with
  | none => s
  | some tok =>
    if tok.sub ≠ some s.steamID ∨ jwtExpLt tok now then
      { s with mobileAccessToken := none }
    else
      s

/-- The invariant of claim C3: any stored token's subject equals the
session's current identity. -/
def tokenSubjectInv (s : SessionState) : Prop :=
  ∀ tok, s.mobileAccessToken = some tok → tok.sub = some s.steamID

instance (s : SessionState) : Decidable (tokenSubjectInv s) := by
  unfold tokenSubjectInv
  cases s.mobileAccessToken with
  | none => exact .isTrue (by intro tok h; cases h)
  | some t =>
    exact if h : t.sub = some s.steamID then
      .isTrue (by intro tok ht; cases ht; exact h)
    else
      .isFalse (by intro hall; exact h (hall t rfl))

/-! ### Concrete fixtures used by counterexamples and witnesses -/

/-- A logged-in session with no stored token. -/
def s0 : SessionState := ⟨"76561198000000001", none⟩

/-- A token whose expiry equals the current test time 100. -/
def tokExpNow : Jwt :=
  ⟨some "steamclient", some "76561198000000001", some ["web", "mobile"], some 100⟩

/-- A token with no audience claim but otherwise valid claims. -/
def tokNoAud : Jwt :=
  ⟨some "steamclient", some "76561198000000001", none, some 200⟩

/-! ### TokenGuard claims -/

/-- C10: a token carrying all four claim fields where some field is falsy
(empty issuer, empty subject, or expiry 0) is rejected as
`malformedToken` — the presence test is a truthiness test, so the
claim-specific rejection is never reached. -/
theorem c10_falsy_claim_is_malformed (s : SessionState) (now : Nat)
    (i su : String) (l : List String) (e : Nat)
    (hfalsy : i = "" ∨ su = "" ∨ e = 0) :
    setMobileAppAccessToken s ⟨some i, some su, some l, some e⟩ now
      = .error .malformedToken := by
  unfold setMobileAppAccessToken
  rcases hfalsy with h | h | h <;> subst h <;>
    simp [jsTruthyStr, jsTruthyNat, jsTruthyArr]

/-- Witness for C10 at expiry 0 with all other claims valid. -/
theorem c10_witness :
    ((("steamclient" : String) = "" ∨ ("76561198000000001" : String) = "" ∨ (0 : Nat) = 0)
    ∧ setMobileAppAccessToken s0
        ⟨some "steamclient", some "76561198000000001", some ["mobile"], some 0⟩ 100
        = .error .malformedToken) :=
  ⟨Or.inr (Or.inr rfl),
    c10_falsy_claim_is_malformed s0 100 "steamclient" "76561198000000001" ["mobile"] 0
      (Or.inr (Or.inr rfl))⟩

/-- C2 counterexample: a token whose expiry exactly equals the current
time (100) is accepted by `setMobileAppAccessToken`, although the claim
says expiry less than or equal to now must throw `tokenExpired`. -/
theorem c2_counterexample :
    tokExpNow.exp = some 100 ∧ ¬ ((100 : Nat) < 100) ∧
    setMobileAppAccessToken s0 tokExpNow 100
      = .ok ⟨"76561198000000001", some tokExpNow⟩ :=
  ⟨rfl, by decide, rfl⟩

/-- C2 amended: for a token with truthy claims, a non-refresh issuer and a
matching subject, install throws `tokenExpired` exactly when the expiry is
strictly less than now; when expiry is greater than or equal to now and
the audience contains `mobile`, the token is accepted and stored. -/
theorem c2_expiry_boundary (s : SessionState) (i su : String) (l : List String) (e now : Nat)
    (hi : i ≠ "") (hsu : su ≠ "") (he : e ≠ 0) (hiss : i ≠ "steam") (hsub : su = s.steamID) :
    (setMobileAppAccessToken s ⟨some i, some su, some l, some e⟩ now
        = .error .tokenExpired ↔ e < now)
    ∧ (now ≤ e → "mobile" ∈ l →
        setMobileAppAccessToken s ⟨some i, some su, some l, some e⟩ now
          = .ok { s with mobileAccessToken := some ⟨some i, some su, some l, some e⟩ }) := by
  subst hsub
  unfold setMobileAppAccessToken jwtExpLt
  by_cases hlt : e < now <;> by_cases hm : "mobile" ∈ l <;>
    simp [jsTruthyStr, jsTruthyNat, jsTruthyArr, hi, hsu, he, hiss, hlt, hm]

/-- Witness for the amended C2 at the expiry-equals-now boundary. -/
theorem c2_expiry_boundary_witness :
    (setMobileAppAccessToken s0 tokExpNow 100 = .error .tokenExpired ↔ (100 : Nat) < 100)
    ∧ ((100 : Nat) ≤ 100 → "mobile" ∈ ["web", "mobile"] →
        setMobileAppAccessToken s0 tokExpNow 100
          = .ok ⟨"76561198000000001", some tokExpNow⟩) :=
  c2_expiry_boundary s0 "steamclient" "76561198000000001" ["web", "mobile"] 100 100
    (by decide) (by decide) (by decide) (by decide) rfl

/-- C5 counterexample: a token whose audience claim is entirely absent
(and whose other claims are valid) is rejected as `malformedToken` by the
truthiness presence test, not as `wrongAudience` as the claim states. -/
theorem c5_counterexample :
    tokNoAud.aud = none ∧ ("mobile" ∈ tokNoAud.aud.getD []) = False ∧
    setMobileAppAccessToken s0 tokNoAud 100 = .error .malformedToken ∧
    (Except.error .malformedToken : Except TokenError SessionState)
      ≠ .error .wrongAudience :=
  ⟨rfl, by simp [tokNoAud], rfl, by simp⟩

/-- C5 amended: a token whose audience claim is absent fails as
`malformedToken` (whatever its other claims are); a token whose audience
claim is present but lacks the `mobile` tag, and which passes the earlier
checks (truthy claims, non-refresh issuer, matching subject, not
expired), fails as `wrongAudience`. -/
theorem c5_audience_rejection :
    (∀ (s : SessionState) (tok : Jwt) (now : Nat), tok.aud = none →
      setMobileAppAccessToken s tok now = .error .malformedToken)
    ∧ (∀ (s : SessionState) (i su : String) (l : List String) (e now : Nat),
        i ≠ "" → su ≠ "" → e ≠ 0 → i ≠ "steam" → su = s.steamID → ¬ e < now →
        "mobile" ∉ l →
        setMobileAppAccessToken s ⟨some i, some su, some l, some e⟩ now
          = .error .wrongAudience) := by
  constructor
  · intro s tok now haud
    unfold setMobileAppAccessToken
    simp [jsTruthyArr, haud]
  · intro s i su l e now hi hsu he hiss hsub hlt hm
    subst hsub
    unfold setMobileAppAccessToken jwtExpLt
    simp [jsTruthyStr, jsTruthyNat, jsTruthyArr, hi, hsu, he, hiss, hlt, hm]

/-- Witness for the amended C5: the absent-audience branch at `tokNoAud`
and the present-but-wrong-audience branch at an explicit token. -/
theorem c5_audience_rejection_witness :
    setMobileAppAccessToken s0 tokNoAud 100 = .error .malformedToken
    ∧ setMobileAppAccessToken s0
        ⟨some "steamclient", some "76561198000000001", some ["web"], some 200⟩ 100
        = .error .wrongAudience :=
  ⟨c5_audience_rejection.1 s0 tokNoAud 100 rfl,
    c5_audience_rejection.2 s0 "steamclient" "76561198000000001" ["web"] 200 100
      (by decide) (by decide) (by decide) (by decide) rfl (by decide) (by decide)⟩

/-- C3: after any `_verifyMobileAccessToken` call the invariant holds
unconditionally; any successful `setMobileAppAccessToken` yields a state
satisfying the invariant; and a token whose subject differs from the
current identity can never be installed (install throws, storing
nothing). -/
theorem c3_subject_invariant :
    (∀ (s : SessionState) (now : Nat), tokenSubjectInv (verifyMobileAccessToken s now))
    ∧ (∀ (s s2 : SessionState) (tok : Jwt) (now : Nat),
        setMobileAppAccessToken s tok now = .ok s2 → tokenSubjectInv s2)
    ∧ (∀ (s s2 : SessionState) (tok : Jwt) (now : Nat),
        tok.sub ≠ some s.steamID → setMobileAppAccessToken s tok now ≠ .ok s2) := by
  refine ⟨?_, ?_, ?_⟩
  · intro s now
    unfold verifyMobileAccessToken
    cases hmt : s.mobileAccessToken with
    | none => intro tok h; rw [hmt] at h; cases h
    | some tok =>
      by_cases hbad : tok.sub ≠ some s.steamID ∨ jwtExpLt tok now
      · simp only [hbad, if_pos]
        intro t h; cases h
      · simp only [hbad, if_neg, not_false_eq_true]
        intro t h
        rw [hmt] at h
        cases h
        push_neg at hbad
        exact hbad.1
  · intro s s2 tok now h
    unfold setMobileAppAccessToken at h
    split_ifs at h with h1 h2 h3 h4 h5
    cases h
    intro t ht
    cases ht
    push_neg at h3
    exact h3
  · intro s s2 tok now hsub h
    unfold setMobileAppAccessToken at h
    split_ifs at h

/-- Witness for C3: the invariant after a revalidation of `s0` and after a
concrete successful install. -/
theorem c3_subject_invariant_witness :
    tokenSubjectInv (verifyMobileAccessToken s0 100)
    ∧ tokenSubjectInv ⟨"76561198000000001", some tokExpNow⟩
    ∧ setMobileAppAccessToken s0 ⟨none, some "1", some ["mobile"], some 5⟩ 100
        ≠ .ok s0 :=
  ⟨c3_subject_invariant.1 s0 100,
    c3_subject_invariant.2.1 s0 ⟨"76561198000000001", some tokExpNow⟩ tokExpNow 100 rfl,
    c3_subject_invariant.2.2 s0 s0 ⟨none, some "1", some ["mobile"], some 5⟩ 100
      (by decide)⟩

/-- C4: `_verifyMobileAccessToken` (a total function — the source has no
throwing statement) is a no-op when no token is stored, and otherwise
clears the stored token exactly when the subject differs from the current
identity or the token is expired, returning the state unchanged
otherwise. -/
theorem c4_revalidate_characterization :
    ∀ (s : SessionState) (now : Nat),
      (s.mobileAccessToken = none → verifyMobileAccessToken s now = s)
      ∧ (∀ tok, s.mobileAccessToken = some tok →
          ((tok.sub ≠ some s.steamID ∨ jwtExpLt tok now) →
            verifyMobileAccessToken s now = { s with mobileAccessToken := none })
          ∧ (tok.sub = some s.steamID → ¬ jwtExpLt tok now →
            verifyMobileAccessToken s now = s)) := by
  intro s now
  constructor
  · intro h
    unfold verifyMobileAccessToken
    rw [h]
  · intro tok hmt
    constructor
    · intro hbad
      unfold verifyMobileAccessToken
      rw [hmt]
      simp only [hbad, if_pos]
    · intro hsub hexp
      unfold verifyMobileAccessToken
      rw [hmt]
      have : ¬ (tok.sub ≠ some s.steamID ∨ jwtExpLt tok now) := by
        push_neg
        exact ⟨by simp [hsub], by simpa using hexp⟩
      simp only [this, if_neg, not_false_eq_true]

/-- Witness for C4: the no-op case on `s0` and both eviction directions on
a session holding `tokExpNow`. -/
theorem c4_revalidate_characterization_witness :
    (verifyMobileAccessToken s0 100 = s0)
    ∧ (verifyMobileAccessToken ⟨"76561198000000001", some tokExpNow⟩ 101
        = ⟨"76561198000000001", none⟩)
    ∧ (verifyMobileAccessToken ⟨"76561198000000001", some tokExpNow⟩ 100
        = ⟨"76561198000000001", some tokExpNow⟩) :=
  ⟨(c4_revalidate_characterization s0 100).1 rfl,
    ((c4_revalidate_characterization ⟨"76561198000000001", some tokExpNow⟩ 101).2
      tokExpNow rfl).1 (Or.inr (by decide)),
    ((c4_revalidate_characterization ⟨"76561198000000001", some tokExpNow⟩ 100).2
      tokExpNow rfl).2 rfl (by decide)⟩

/-! ### KeyProvisioner fixtures -/

/-- Collaborators that always succeed: confirmations are approved and an
existing key `EXISTINGKEY` can be fetched. -/
def envAlwaysOk : CollabEnv := ⟨fun _ _ => .ok (), .ok "EXISTINGKEY"⟩

/-- Collaborators whose confirmation approval fails with `external 7`. -/
def envConfirmFail : CollabEnv := ⟨fun _ _ => .error (.external 7), .ok "EXISTINGKEY"⟩

/-- Collaborators whose existing-key lookup fails with `external 3`. -/
def envFetchFail : CollabEnv := ⟨fun _ _ => .ok (), .error (.external 3)⟩

/-- A `Pending` registration reply echoing `request_id = rid`, with the
`requires_confirmation` hint set. -/
def pend (rid : String) : RegisterResponse := ⟨2, none, some rid, 1⟩

/-! ### KeyProvisioner claims -/

/-- C9: with an empty or undefined domain, `createWebApiKey` fails with
the invalid-argument error and produces no collaborator call at all. -/
theorem c9_no_domain_no_network (env : CollabEnv)
    (responses : List (Except SCError RegisterResponse)) (options : CreateApiKeyOptions)
    (h : options.domain = none ∨ options.domain = some "") :
    createRun env responses options = (.error .domainRequired, []) := by
  rw [createRun.eq_def]
  rcases h with h | h <;> rw [h] <;> simp [jsTruthyStr]

/-- Witness for C9 at an undefined domain. -/
theorem c9_no_domain_no_network_witness :
    ((none : Option String) = none ∨ (none : Option String) = some "")
    ∧ createRun envAlwaysOk [.ok (pend "r1")] ⟨none, none, none⟩
        = (.error .domainRequired, []) :=
  ⟨Or.inl rfl,
    c9_no_domain_no_network envAlwaysOk [.ok (pend "r1")] ⟨none, none, none⟩ (Or.inl rfl)⟩

/-- C7: on result code `OK`, a truthy `api_key` is returned as issued;
without one, the `getWebApiKey` lookup's success becomes the issued key
and its failure is propagated unchanged. -/
theorem c7_ok_branch (env : CollabEnv) (rest : List (Except SCError RegisterResponse))
    (options : CreateApiKeyOptions) (body : RegisterResponse)
    (hdom : jsTruthyStr options.domain = true) (hok : body.success = EResult.OK) :
    (jsTruthyStr body.api_key = true →
      createRun env (.ok body :: rest) options
        = (.ok ⟨false, body.api_key, none⟩,
           [.httpPost (options.domain.getD "") (jsOrStrD options.requestID "0")]))
    ∧ (jsTruthyStr body.api_key = false → ∀ key, env.getWebApiKey = .ok key →
      createRun env (.ok body :: rest) options
        = (.ok ⟨false, some key, none⟩,
           [.httpPost (options.domain.getD "") (jsOrStrD options.requestID "0"), .fetchKey]))
    ∧ (jsTruthyStr body.api_key = false → ∀ e, env.getWebApiKey = .error e →
      createRun env (.ok body :: rest) options
        = (.error e,
           [.httpPost (options.domain.getD "") (jsOrStrD options.requestID "0"), .fetchKey])) := by
  refine ⟨?_, ?_, ?_⟩
  · intro hkey
    rw [createRun.eq_def]
    simp [hdom, hok, hkey]
  · intro hkey key hfetch
    rw [createRun.eq_def]
    simp [hdom, hok, hkey, hfetch]
  · intro hkey e hfetch
    rw [createRun.eq_def]
    simp [hdom, hok, hkey, hfetch]

/-- Witness for C7: an `OK` reply carrying key `AABB11`, an `OK` reply
without a key against a succeeding lookup, and one against a failing
lookup. -/
theorem c7_ok_branch_witness :
    (createRun envAlwaysOk [.ok ⟨1, some "AABB11", none, 0⟩] ⟨some "example.com", none, none⟩
        = (.ok ⟨false, some "AABB11", none⟩, [.httpPost "example.com" "0"]))
    ∧ (createRun envAlwaysOk [.ok ⟨1, none, none, 0⟩] ⟨some "example.com", none, none⟩
        = (.ok ⟨false, some "EXISTINGKEY", none⟩, [.httpPost "example.com" "0", .fetchKey]))
    ∧ (createRun envFetchFail [.ok ⟨1, none, none, 0⟩] ⟨some "example.com", none, none⟩
        = (.error (.external 3), [.httpPost "example.com" "0", .fetchKey])) :=
  ⟨(c7_ok_branch envAlwaysOk [] ⟨some "example.com", none, none⟩ ⟨1, some "AABB11", none, 0⟩
      (by decide) rfl).1 (by decide),
    (c7_ok_branch envAlwaysOk [] ⟨some "example.com", none, none⟩ ⟨1, none, none, 0⟩
      (by decide) rfl).2.1 (by decide) "EXISTINGKEY" rfl,
    (c7_ok_branch envFetchFail [] ⟨some "example.com", none, none⟩ ⟨1, none, none, 0⟩
      (by decide) rfl).2.2 (by decide) (.external 3) rfl⟩

/-- C6: on result code `Pending` with no identity secret, the call
resolves without error to a confirmation-required response whose resume
request keeps the original domain and takes the echoed `request_id`, or
the original `requestID` when the echo is absent or empty. -/
theorem c6_pending_no_secret (env : CollabEnv) (rest : List (Except SCError RegisterResponse))
    (options : CreateApiKeyOptions) (body : RegisterResponse)
    (hdom : jsTruthyStr options.domain = true) (hp : body.success = EResult.Pending)
    (hsec : options.identitySecret = none) :
    createRun env (.ok body :: rest) options
      = (.ok ⟨true, none, some ⟨options.domain, jsOrStr body.request_id options.requestID, none⟩⟩,
         [.httpPost (options.domain.getD "") (jsOrStrD options.requestID "0")]) := by
  rw [createRun.eq_def]
  simp [hdom, hp, hsec, EResult.OK, EResult.Pending]

/-- Witness for C6 with an echoed `request_id` of `r1`. -/
theorem c6_pending_no_secret_witness :
    createRun envAlwaysOk [.ok (pend "r1")] ⟨some "example.com", none, none⟩
      = (.ok ⟨true, none, some ⟨some "example.com", some "r1", none⟩⟩,
         [.httpPost "example.com" "0"]) :=
  c6_pending_no_secret envAlwaysOk [] ⟨some "example.com", none, none⟩ (pend "r1")
    (by decide) rfl rfl

/-- C8: two registration replies agreeing on `success`, `api_key` and
`request_id` but differing arbitrarily in `requires_confirmation` lead to
identical outcomes and identical collaborator traces — the branch depends
only on the result code. -/
theorem c8_confirmation_hint_ignored (env : CollabEnv) (opts : CreateApiKeyOptions)
    (rest : List (Except SCError RegisterResponse)) (b1 b2 : RegisterResponse)
    (hs : b1.success = b2.success) (hk : b1.api_key = b2.api_key)
    (hr : b1.request_id = b2.request_id) :
    createRun env (.ok b1 :: rest) opts = createRun env (.ok b2 :: rest) opts := by
  obtain ⟨s1, k1, r1, c1⟩ := b1
  obtain ⟨s2, k2, r2, c2⟩ := b2
  dsimp only at hs hk hr
  subst hs
  subst hk
  subst hr
  conv_lhs => rw [createRun.eq_def]
  conv_rhs => rw [createRun.eq_def]

/-- Witness for C8: a `Pending` reply with the hint set and the same reply
with the hint cleared produce the same outcome. -/
theorem c8_confirmation_hint_ignored_witness :
    createRun envAlwaysOk [.ok ⟨2, none, some "r1", 1⟩] ⟨some "example.com", none, none⟩
      = createRun envAlwaysOk [.ok ⟨2, none, some "r1", 0⟩] ⟨some "example.com", none, none⟩ :=
  c8_confirmation_hint_ignored envAlwaysOk ⟨some "example.com", none, none⟩ []
    ⟨2, none, some "r1", 1⟩ ⟨2, none, some "r1", 0⟩ rfl rfl rfl

/-- C1 counterexample: with the approval collaborator always succeeding
and the server answering `Pending` twice, a `create` call carrying an
identity secret resolves after one approval to a confirmation-required
response whose resume request carries no identity secret — the second
`Pending` was not auto-confirmed (the trace holds exactly one approval),
although the collaborator would have approved the second hop as well. -/
theorem c1_counterexample :
    createRun envAlwaysOk [.ok (pend "r1"), .ok (pend "r2")]
        ⟨some "example.com", none, some "secret"⟩
      = (.ok ⟨true, none, some ⟨some "example.com", some "r2", none⟩⟩,
         [.httpPost "example.com" "0", .acceptConfirm "secret" (some "r1"),
          .httpPost "example.com" "r1"])
    ∧ envAlwaysOk.acceptConfirmation "secret" (some "r2") = .ok () := by
  constructor
  · simp [createRun, envAlwaysOk, pend, jsTruthyStr, jsOrStr, jsOrStrD,
      EResult.OK, EResult.Pending]
  · rfl

/-- C1 amended: on `Pending` with a (non-empty) identity secret, a failing
approval is propagated unchanged, and a successful approval recurses into
`create` with the resume request carrying no identity secret. -/
theorem c1_pending_with_secret (env : CollabEnv) (rest : List (Except SCError RegisterResponse))
    (options : CreateApiKeyOptions) (body : RegisterResponse) (secret : String)
    (hdom : jsTruthyStr options.domain = true) (hp : body.success = EResult.Pending)
    (hsec : options.identitySecret = some secret) (hne : secret ≠ "") :
    (∀ e, env.acceptConfirmation secret (jsOrStr body.request_id options.requestID) = .error e →
      createRun env (.ok body :: rest) options
        = (.error e,
           [.httpPost (options.domain.getD "") (jsOrStrD options.requestID "0"),
            .acceptConfirm secret (jsOrStr body.request_id options.requestID)]))
    ∧ (env.acceptConfirmation secret (jsOrStr body.request_id options.requestID) = .ok () →
      createRun env (.ok body :: rest) options
        = ((createRun env rest
              ⟨options.domain, jsOrStr body.request_id options.requestID, none⟩).1,
           .httpPost (options.domain.getD "") (jsOrStrD options.requestID "0")
            :: .acceptConfirm secret (jsOrStr body.request_id options.requestID)
            :: (createRun env rest
                  ⟨options.domain, jsOrStr body.request_id options.requestID, none⟩).2)) := by
  constructor
  · intro e hconf
    conv_lhs => rw [createRun.eq_def]
    simp [hdom, hp, hsec, hne, hconf, EResult.OK, EResult.Pending]
  · intro hconf
    conv_lhs => rw [createRun.eq_def]
    simp [hdom, hp, hsec, hne, hconf, EResult.OK, EResult.Pending]

/-- Witness for the amended C1: a failing approval propagates `external 7`
with no recursion, and a succeeding approval recurses secret-free. -/
theorem c1_pending_with_secret_witness :
    (createRun envConfirmFail [.ok (pend "r1")] ⟨some "example.com", none, some "secret"⟩
      = (.error (.external 7),
         [.httpPost "example.com" "0", .acceptConfirm "secret" (some "r1")]))
    ∧ (createRun envAlwaysOk [.ok (pend "r1")] ⟨some "example.com", none, some "secret"⟩
      = ((createRun envAlwaysOk [] ⟨some "example.com", some "r1", none⟩).1,
         .httpPost "example.com" "0" :: .acceptConfirm "secret" (some "r1")
          :: (createRun envAlwaysOk [] ⟨some "example.com", some "r1", none⟩).2)) :=
  ⟨(c1_pending_with_secret envConfirmFail [] ⟨some "example.com", none, some "secret"⟩
      (pend "r1") "secret" (by decide) rfl rfl (by decide)).1 (.external 7) rfl,
    (c1_pending_with_secret envAlwaysOk [] ⟨some "example.com", none, some "secret"⟩
      (pend "r1") "secret" (by decide) rfl rfl (by decide)).2 rfl⟩
